import Mathlib

/-!
Verification of the audit, image-provenance and exchange-rate subsystems of a
church-website backend. Each definition below is a shallow embedding of the
corresponding Python function, translated clause by clause from the source:

  - api/audit_middleware.py : request context carrier and audit recorder
  - api/signals.py          : image upload tracking and its signal registry
  - api/management/commands/cleanup_image_logs.py : orphan reconciler
  - api/management/commands/update_exchange_rates.py : rate-cache refresh
  - api/views.py            : price-conversion endpoints
  - api/apps.py             : background scheduler registration
  - api/admin.py, api/audit.py, api/models.py : audit-log surface
-/

/- ===================================================================
   Requests and the thread-local context carrier (audit_middleware.py)
   =================================================================== -/

/-- An inbound HTTP request as seen by the audit middleware. The field
userId models request.user: some id when request.user.is_authenticated,
none for an anonymous user. The three remaining fields model the entries
HTTP_X_FORWARDED_FOR, REMOTE_ADDR and HTTP_USER_AGENT of request.META,
each absent when the corresponding key is missing. -/
structure Request where
  userId : Option Nat
  httpXForwardedFor : Option String
  remoteAddr : Option String
  httpUserAgent : Option String
  deriving DecidableEq, Repr

/-- Embeds get_client_ip of audit_middleware.py. Python truthiness: an
empty HTTP_X_FORWARDED_FOR string is falsy, so it falls through to
REMOTE_ADDR exactly like a missing key. -/
def get_client_ip (request : Request) : Option String :=
  match request.httpXForwardedFor with
  | some xff => if xff = "" then request.remoteAddr else some ((xff.splitOn ",").headD xff)
  | none => request.remoteAddr

/-- The per-thread request slot written by
AuditLoggingMiddleware.process_request: the middleware stores the request
object as an attribute of threading.current_thread(). A thread is a Nat
id; the slot map sends each thread id to the request stored on that
thread, none when the attribute was never set. -/
abbrev ThreadSlots : Type := Nat → Option Request

/-- Embeds AuditLoggingMiddleware.process_request running on thread tid:
it assigns the request to the slot of the current thread and touches no
other thread. -/
def process_request (slots : ThreadSlots) (tid : Nat) (request : Request) : ThreadSlots :=
  fun t => if t = tid then some request else slots t

/-- One full request lifecycle on thread tid, as implemented:
AuditLoggingMiddleware defines only process_request; there is no
process_response or process_exception hook, so nothing resets the slot
after the view returns or raises. The flag handlerRaised records whether
the view raised; the resulting thread state does not depend on it. -/
def handle_request (slots : ThreadSlots) (tid : Nat) (request : Request)
    (handlerRaised : Bool) : ThreadSlots :=
  let slots2 := process_request slots tid request
  match handlerRaised with
  | true => slots2
  | false => slots2

/- ===================================================================
   The audit recorder (audit_middleware.py, audit.py, models.py)
   =================================================================== -/

/-- The ACTION_CHOICES of the AuditLog model in models.py. -/
inductive AuditAction
  | CREATE
  | UPDATE
  | DELETE
  | LOGIN
  | LOGOUT
  | PERMISSION_DENIED
  | FILE_UPLOAD
  deriving DecidableEq, Repr

/-- One row of the AuditLog table (models.py). The timestamp column
(auto_now_add) and the changes JSON column are not modelled; both are,
like every column here, written once at creation. -/
structure AuditLogRow where
  user : Option Nat
  action : AuditAction
  model_name : String
  object_id : Option Nat
  object_repr : String
  ip_address : Option String
  user_agent : String
  deriving DecidableEq, Repr

/-- Embeds get_request_user: reads the slot of the current thread; the
none branch models the AttributeError raised when the attribute was never
set on the thread. An anonymous request (userId = none) also yields none
because request.user.is_authenticated is false. -/
def get_request_user (slot : Option Request) : Option Nat :=
  match slot with
  | none => none
  | some request => if request.userId.isSome then request.userId else none

/-- Embeds get_request_ip. -/
def get_request_ip (slot : Option Request) : Option String :=
  match slot with
  | none => none
  | some request => get_client_ip request

/-- Embeds get_request_user_agent: META.get falls back to the empty
string. -/
def get_request_user_agent (slot : Option Request) : String :=
  match slot with
  | none => ""
  | some request => request.httpUserAgent.getD ""

/-- Embeds log_model_action of audit_middleware.py. The call to
AuditLog.objects.create is fallible; dbOk = false models that call
raising a database error. The source wraps the call in no try/except, so
a raised error escapes to the caller of the triggering save. -/
def log_model_action (dbOk : Bool) (senderName : String) (instanceId : Nat)
    (instanceRepr : String) (created : Bool) (slot : Option Request)
    (store : List AuditLogRow) : Except String (List AuditLogRow) :=
  match get_request_user slot with
  | none => .ok store
  | some user =>
    let action_type := if created then AuditAction.CREATE else AuditAction.UPDATE
    if dbOk then
      let row : AuditLogRow :=
        { user := some user, action := action_type, model_name := senderName,
          object_id := some instanceId, object_repr := instanceRepr,
          ip_address := get_request_ip slot,
          user_agent := get_request_user_agent slot }
      .ok (store ++ [row])
    else .error "DatabaseError"

/-- Embeds log_model_delete of audit_middleware.py; same shape as
log_model_action with the fixed DELETE action. -/
def log_model_delete (dbOk : Bool) (senderName : String) (instanceId : Nat)
    (instanceRepr : String) (slot : Option Request)
    (store : List AuditLogRow) : Except String (List AuditLogRow) :=
  match get_request_user slot with
  | none => .ok store
  | some user =>
    if dbOk then
      let row : AuditLogRow :=
        { user := some user, action := AuditAction.DELETE, model_name := senderName,
          object_id := some instanceId, object_repr := instanceRepr,
          ip_address := get_request_ip slot,
          user_agent := get_request_user_agent slot }
      .ok (store ++ [row])
    else .error "DatabaseError"

/-- Embeds log_login_failed of audit_middleware.py: an anonymous failed
login writes one PERMISSION_DENIED row carrying the request client ip and
user agent; user is None and no object id is passed. -/
def log_login_failed (dbOk : Bool) (username : Option String) (request : Request)
    (store : List AuditLogRow) : Except String (List AuditLogRow) :=
  if dbOk then
    let row : AuditLogRow :=
      { user := none, action := AuditAction.PERMISSION_DENIED,
        model_name := "User", object_id := none,
        object_repr := "Failed login attempt: " ++ username.getD "unknown",
        ip_address := get_client_ip request,
        user_agent := request.httpUserAgent.getD "" }
    .ok (store ++ [row])
  else .error "DatabaseError"

/-- Embeds log_user_login of audit_middleware.py. -/
def log_user_login (dbOk : Bool) (userId : Nat) (request : Request)
    (store : List AuditLogRow) : Except String (List AuditLogRow) :=
  if dbOk then
    let row : AuditLogRow :=
      { user := some userId, action := AuditAction.LOGIN,
        model_name := "User", object_id := none, object_repr := "Login",
        ip_address := get_client_ip request,
        user_agent := request.httpUserAgent.getD "" }
    .ok (store ++ [row])
  else .error "DatabaseError"

/-- Embeds log_user_logout of audit_middleware.py: the body is guarded by
an if user check. -/
def log_user_logout (dbOk : Bool) (userId : Option Nat) (request : Request)
    (store : List AuditLogRow) : Except String (List AuditLogRow) :=
  match userId with
  | none => .ok store
  | some u =>
    if dbOk then
      let row : AuditLogRow :=
        { user := some u, action := AuditAction.LOGOUT,
          model_name := "User", object_id := none, object_repr := "Logout",
          ip_address := get_client_ip request,
          user_agent := request.httpUserAgent.getD "" }
      .ok (store ++ [row])
    else .error "DatabaseError"

/-- Embeds log_admin_action of audit.py: an explicit append-only write of
one AuditLog row; ip and user agent come from the optional request. -/
def log_admin_action (dbOk : Bool) (userId : Option Nat) (action : AuditAction)
    (modelName : String) (objectId : Option Nat) (objectRepr : String)
    (request : Option Request) (store : List AuditLogRow) :
    Except String (List AuditLogRow) :=
  let ip_address := match request with
    | some r => get_client_ip r
    | none => none
  let user_agent := match request with
    | some r => r.httpUserAgent.getD ""
    | none => ""
  if dbOk then
    let row : AuditLogRow :=
      { user := userId, action := action, model_name := modelName,
        object_id := objectId, object_repr := objectRepr,
        ip_address := ip_address, user_agent := user_agent }
    .ok (store ++ [row])
  else .error "DatabaseError"

/-- One entity write observed by the tracked-model signal handlers of
audit_middleware.py: a post_save (with its created flag) or a
post_delete. -/
inductive WriteOp
  | save (senderName : String) (instanceId : Nat) (instanceRepr : String) (created : Bool)
  | del (senderName : String) (instanceId : Nat) (instanceRepr : String)
  deriving DecidableEq, Repr

/-- Runs a sequence of entity writes through the recorder under one fixed
thread slot, stopping at the first escaped database error. -/
def run_writes (dbOk : Bool) (slot : Option Request) :
    List WriteOp → List AuditLogRow → Except String (List AuditLogRow)
  | [], store => .ok store
  | op :: rest, store =>
    let step := match op with
      | .save n i r c => log_model_action dbOk n i r c slot store
      | .del n i r => log_model_delete dbOk n i r slot store
    match step with
    | .ok store2 => run_writes dbOk slot rest store2
    | .error e => .error e

/- ===================================================================
   Image provenance tracking (signals.py, models.py)
   =================================================================== -/

/-- The nine model classes that signals.py wires to log_image_upload and
cleanup_image_logs_on_delete (the image-bearing registry). -/
inductive TrackedModel
  | HomeBanner
  | HeadPastor
  | Leader
  | PhotoGallery
  | Sermon
  | Event
  | GivingImage
  | Branch
  | Merchandise
  deriving DecidableEq, Repr

/-- The Python class __name__ of each tracked model. -/
def modelNameOf : TrackedModel → String
  | .HomeBanner => "HomeBanner"
  | .HeadPastor => "HeadPastor"
  | .Leader => "Leader"
  | .PhotoGallery => "PhotoGallery"
  | .Sermon => "Sermon"
  | .Event => "Event"
  | .GivingImage => "GivingImage"
  | .Branch => "Branch"
  | .Merchandise => "Merchandise"

/-- The names of the ImageField columns each tracked model declares, read
off the model definitions in models.py. Among these models the attribute
names image and profile_picture occur only as ImageField columns, so
hasattr probes for those two names are decided by this table. Sermon is
the one registered model whose only image column is custom_thumbnail. -/
def imageFieldNames : TrackedModel → List String
  | .HomeBanner => ["image"]
  | .HeadPastor => ["image"]
  | .Leader => ["profile_picture"]
  | .PhotoGallery => ["image"]
  | .Sermon => ["custom_thumbnail"]
  | .Event => ["image"]
  | .GivingImage => ["image"]
  | .Branch => ["image"]
  | .Merchandise => ["image"]

/-- hasattr(inst, a) for an instance of a tracked model and an image
attribute name. -/
def hasAttr (model : TrackedModel) (a : String) : Bool :=
  (imageFieldNames model).contains a

/-- One saved instance of a tracked model. attrs maps each image column
name to the stored file name; a missing entry or the empty string models
a blank FieldFile (whose truthiness is that of its name). -/
structure ModelInstance where
  model : TrackedModel
  id : Nat
  attrs : List (String × String)
  file_size : Option Nat
  deriving DecidableEq, Repr

/-- The file name stored under an image attribute of an instance; the
empty string when blank. -/
def attrVal (inst : ModelInstance) (a : String) : String :=
  (inst.attrs.lookup a).getD ""

/-- One row of the ImageLog table (models.py). The uploaded_at column
(auto_now_add) is not modelled. -/
structure ImageLogRow where
  image : String
  content_type : TrackedModel
  object_id : Nat
  section_name : String
  file_size : Option Nat
  deriving DecidableEq, Repr

/-- The section_mapping dict literal inside log_image_upload. -/
def section_mapping : List (TrackedModel × String) :=
  [(.HomeBanner, "Home Banner"), (.HeadPastor, "Head Pastor"),
   (.Leader, "Church Leader"), (.PhotoGallery, "Photo Gallery"),
   (.Sermon, "Sermon"), (.Event, "Event"), (.GivingImage, "Giving Page"),
   (.Branch, "Branch"), (.Merchandise, "Merchandise")]

/-- section_mapping.get(sender, sender.__name__): the label of the kind,
falling back to the class name for a kind missing from the mapping. -/
def sectionNameFor (sender : TrackedModel) : String :=
  (section_mapping.lookup sender).getD (modelNameOf sender)

/-- The image field probed by log_image_upload: hasattr(instance, "image")
first, then hasattr(instance, "profile_picture"); none when the model
declares neither attribute. -/
def imageFieldOf (sender : TrackedModel) (inst : ModelInstance) : Option String :=
  if hasAttr sender "image" then some (attrVal inst "image")
  else if hasAttr sender "profile_picture" then some (attrVal inst "profile_picture")
  else none

/-- Embeds log_image_upload of signals.py. Updates return early; a blank
field (falsy FieldFile) is skipped; the ImageLog create sits inside a
try/except that swallows any error, so dbOk = false leaves the store
unchanged rather than raising. -/
def log_image_upload (dbOk : Bool) (sender : TrackedModel) (inst : ModelInstance)
    (created : Bool) (store : List ImageLogRow) : List ImageLogRow :=
  if !created then store
  else
    let section_name := sectionNameFor sender
    match imageFieldOf sender inst with
    | none => store
    | some f =>
      if f ≠ "" then
        if dbOk then
          store ++ [{ image := f, content_type := sender, object_id := inst.id,
                      section_name := section_name, file_size := inst.file_size }]
        else store
      else store

/-- Django Signal.connect called without a dispatch_uid: the lookup key is
the pair (receiver id, sender id) and a key already present in the
receiver list is not appended again, so a repeated connect of the same
handler and sender leaves a single registration. -/
def signalConnect (receivers : List (String × TrackedModel)) (recv : String)
    (sender : TrackedModel) : List (String × TrackedModel) :=
  if receivers.contains (recv, sender) then receivers else receivers ++ [(recv, sender)]

/-- The post_save receiver list built by the module-level connect calls of
signals.py: one connect per registered model, and a second, duplicated
connect for Merchandise at the end of the file. -/
def post_save_receivers : List (String × TrackedModel) :=
  let rs : List (String × TrackedModel) := []
  let rs := signalConnect rs "log_image_upload" .HomeBanner
  let rs := signalConnect rs "log_image_upload" .HeadPastor
  let rs := signalConnect rs "log_image_upload" .Leader
  let rs := signalConnect rs "log_image_upload" .PhotoGallery
  let rs := signalConnect rs "log_image_upload" .Sermon
  let rs := signalConnect rs "log_image_upload" .Event
  let rs := signalConnect rs "log_image_upload" .GivingImage
  let rs := signalConnect rs "log_image_upload" .Branch
  let rs := signalConnect rs "log_image_upload" .Merchandise
  let rs := signalConnect rs "log_image_upload" .Merchandise
  rs

/-- Sending post_save for an instance runs log_image_upload once per
registration whose sender matches. -/
def send_post_save (sender : TrackedModel) (inst : ModelInstance) (created : Bool)
    (store : List ImageLogRow) : List ImageLogRow :=
  (post_save_receivers.filter (fun r => r.2 == sender)).foldl
    (fun st _ => log_image_upload true sender inst created st) store

/- ===================================================================
   Orphan reconciler (management/commands/cleanup_image_logs.py)
   =================================================================== -/

/-- The models_to_check list of the cleanup command, in source order. -/
def models_to_check : List TrackedModel :=
  [.Event, .HomeBanner, .HeadPastor, .Leader, .PhotoGallery,
   .Sermon, .Branch, .Merchandise, .GivingImage]

/-- model.objects.filter(id=oid).exists() over the entity tables, the
tables being the list of (model, id) rows currently present. -/
def still_exists (entities : List (TrackedModel × Nat)) (model : TrackedModel)
    (oid : Nat) : Bool :=
  entities.any (fun e => e.1 == model && e.2 == oid)

/-- An ImageLog row of the given model whose owner row no longer exists. -/
def orphanOf (entities : List (TrackedModel × Nat)) (model : TrackedModel)
    (l : ImageLogRow) : Bool :=
  l.content_type == model && !still_exists entities model l.object_id

/-- One iteration of the outer loop of Command.handle: for the given
model, every ImageLog row of that model whose owner is gone is deleted
and counted. -/
def cleanupStep (entities : List (TrackedModel × Nat))
    (st : List ImageLogRow × Nat) (model : TrackedModel) :
    List ImageLogRow × Nat :=
  let logs := st.1
  (logs.filter (fun l => !orphanOf entities model l),
   st.2 + (logs.filter (orphanOf entities model)).length)

/-- Embeds Command.handle of cleanup_image_logs.py: folds the per-model
sweep over models_to_check, returning the surviving ImageLog table and
the number of deletions reported. -/
def cleanup_image_logs (entities : List (TrackedModel × Nat))
    (logs : List ImageLogRow) : List ImageLogRow × Nat :=
  models_to_check.foldl (cleanupStep entities) (logs, 0)

/-- An ImageLog row whose owner row no longer exists, independent of any
particular sweep iteration. -/
def is_orphan (entities : List (TrackedModel × Nat)) (l : ImageLogRow) : Bool :=
  !still_exists entities l.content_type l.object_id

/- ===================================================================
   Rate cache refresh (management/commands/update_exchange_rates.py)
   =================================================================== -/

/-- One row of the ExchangeRate table (models.py): unique currency code,
display name and the USD multiplier. The last_updated column (auto_now)
is not modelled. -/
structure ExchangeRateRow where
  currency_code : String
  currency_name : String
  rate : ℚ
  deriving DecidableEq, Repr

/-- The currency_names dict literal of Command.handle. The source lists
the INR key twice with the same value; a Python dict literal keeps a
single binding for it. -/
def currency_names : List (String × String) :=
  [("USD", "US Dollar"), ("GHS", "Ghana Cedi"), ("CUP", "Cuban Peso"),
   ("EUR", "Euro"), ("GBP", "British Pound"), ("JPY", "Japanese Yen"),
   ("INR", "Indian Rupee"), ("AUD", "Australian Dollar"),
   ("CAD", "Canadian Dollar"), ("CHF", "Swiss Franc"), ("CNY", "Chinese Yuan"),
   ("SEK", "Swedish Krona"), ("NZD", "New Zealand Dollar"),
   ("ZAR", "South African Rand"), ("BRL", "Brazilian Real"),
   ("MXN", "Mexican Peso"), ("SGD", "Singapore Dollar"),
   ("HKD", "Hong Kong Dollar"), ("NOK", "Norwegian Krone"),
   ("KRW", "South Korean Won"), ("TRY", "Turkish Lira"),
   ("RUB", "Russian Ruble"), ("AED", "UAE Dirham"),
   ("KES", "Kenyan Shilling"), ("NGN", "Nigerian Naira")]

/-- currency_names.get(code, code + " Currency"). -/
def currencyNameFor (code : String) : String :=
  (currency_names.lookup code).getD (code ++ " Currency")

/-- ExchangeRate.objects.update_or_create keyed on currency_code: updates
the existing row in place or appends a fresh one; the Bool is the
created flag the call returns. -/
def update_or_create_rate (tbl : List ExchangeRateRow) (code : String) (rate : ℚ)
    (name : String) : List ExchangeRateRow × Bool :=
  if tbl.any (fun r => r.currency_code == code) then
    (tbl.map (fun r => if r.currency_code == code then
        { r with rate := rate, currency_name := name } else r), false)
  else (tbl ++ [{ currency_code := code, currency_name := name, rate := rate }], true)

/-- The upsert loop of Command.handle over the fetched rates mapping, in
iteration order. A rate value of none models a malformed upstream value
whose conversion for the Decimal rate column raises; the loop body has no
handler of its own, so that raise leaves the loop at once and the
remaining codes are not processed. The result carries the table, the
created and updated counters, and whether the loop completed. -/
def ratesLoop : List (String × Option ℚ) → List ExchangeRateRow → Nat → Nat →
    List ExchangeRateRow × Nat × Nat × Bool
  | [], tbl, created, updated => (tbl, created, updated, true)
  | (code, some rate) :: rest, tbl, created, updated =>
    let step := update_or_create_rate tbl code rate (currencyNameFor code)
    ratesLoop rest step.1 (if step.2 then created + 1 else created)
      (if step.2 then updated else updated + 1)
  | (_, none) :: _, tbl, created, updated => (tbl, created, updated, false)

/-- Embeds Command.handle of update_exchange_rates.py for a successfully
fetched rates mapping: the whole body sits under a try whose generic
except clause prints the error and returns, so the command itself
terminates normally whether or not the loop completed; the Bool records
loop completion. -/
def handle_update_exchange_rates (rates : List (String × Option ℚ))
    (tbl : List ExchangeRateRow) : List ExchangeRateRow × Bool :=
  let run := ratesLoop rates tbl 0 0
  (run.1, run.2.2.2)

/- ===================================================================
   Price conversion endpoints (views.py)
   =================================================================== -/

/-- Python str.upper on one character, for the ASCII range the currency
codes live in. -/
def pyUpperChar (c : Char) : Char :=
  if 97 ≤ c.toNat ∧ c.toNat ≤ 122 then Char.ofNat (c.toNat - 32) else c

/-- Python str.upper. -/
def pyUpper (s : String) : String := String.mk (s.data.map pyUpperChar)

/-- Round-half-even of a rational to an integer, the rounding Python
round applies. -/
def roundHalfEven (q : ℚ) : ℤ :=
  if q - ⌊q⌋ < 1/2 then ⌊q⌋
  else if 1/2 < q - ⌊q⌋ then ⌊q⌋ + 1
  else if Even ⌊q⌋ then ⌊q⌋ else ⌊q⌋ + 1

/-- round(x, 2) of views.py. -/
def round2 (q : ℚ) : ℚ := (roundHalfEven (q * 100) : ℚ) / 100

/-- A Book row as used by get_book_price. -/
structure Book where
  id : Nat
  name : String
  price : ℚ
  deriving DecidableEq, Repr

/-- A Merchandise row as used by get_merchandise_price. -/
structure Merchandise where
  id : Nat
  name : String
  price : ℚ
  deriving DecidableEq, Repr

/-- The JsonResponse payloads the two price endpoints can produce; the
last_updated echo of the converted payload is not modelled. The
serverError constructor stands for the generic except branch returning
status 500. -/
inductive PriceResponse
  | usdOk (entityId : Nat) (entityName : String) (price : ℚ)
  | convertedOk (entityId : Nat) (entityName : String)
      (original converted rate : ℚ) (currencyName currencyCode : String)
  | currencyNotFound (currencyCode : String) (available : List String)
  | entityNotFound
  | serverError (msg : String)
  deriving DecidableEq, Repr

/-- The HTTP status each payload is returned with. -/
def statusOf : PriceResponse → Nat
  | .usdOk .. => 200
  | .convertedOk .. => 200
  | .currencyNotFound .. => 404
  | .entityNotFound => 404
  | .serverError _ => 500

/-- Embeds get_book_price of views.py: fetch the book by id, read the
currency query parameter with default USD, uppercase it, short-circuit
USD, otherwise look the code up in the ExchangeRate table; an unknown
code yields the 404 payload carrying the list of known codes. -/
def get_book_price (books : List Book) (tbl : List ExchangeRateRow)
    (book_id : Nat) (currencyParam : Option String) : PriceResponse :=
  match books.find? (fun b => b.id == book_id) with
  | none => .entityNotFound
  | some book =>
    let currency := pyUpper (currencyParam.getD "USD")
    if currency = "USD" then .usdOk book.id book.name book.price
    else
      match tbl.find? (fun r => r.currency_code == currency) with
      | some er => .convertedOk book.id book.name book.price
          (round2 (book.price * er.rate)) er.rate er.currency_name currency
      | none => .currencyNotFound currency (tbl.map (fun r => r.currency_code))

/-- Embeds get_merchandise_price of views.py, the same logic over the
Merchandise table. -/
def get_merchandise_price (items : List Merchandise) (tbl : List ExchangeRateRow)
    (merchandise_id : Nat) (currencyParam : Option String) : PriceResponse :=
  match items.find? (fun m => m.id == merchandise_id) with
  | none => .entityNotFound
  | some merchandise =>
    let currency := pyUpper (currencyParam.getD "USD")
    if currency = "USD" then .usdOk merchandise.id merchandise.name merchandise.price
    else
      match tbl.find? (fun r => r.currency_code == currency) with
      | some er => .convertedOk merchandise.id merchandise.name merchandise.price
          (round2 (merchandise.price * er.rate)) er.rate er.currency_name currency
      | none => .currencyNotFound currency (tbl.map (fun r => r.currency_code))

/- ===================================================================
   Scheduler registration (apps.py)
   =================================================================== -/

/-- One APScheduler job as registered by ApiConfig.setup_scheduler. The
misfire_grace_time argument of add_job is a number of seconds. -/
structure SchedJob where
  id : String
  name : String
  cronHour : Nat
  cronMinute : Nat
  misfire_grace_time : Nat
  deriving DecidableEq, Repr

/-- APScheduler BackgroundScheduler.add_job keyed on the job id: with
replace_existing the old job of the same id is removed and the new one
stored; without it a duplicate id raises ConflictingIdError. -/
def add_job (jobs : List SchedJob) (j : SchedJob) (replace_existing : Bool) :
    Except String (List SchedJob) :=
  if jobs.any (fun x => x.id == j.id) then
    if replace_existing then .ok ((jobs.filter (fun x => !(x.id == j.id))) ++ [j])
    else .error "ConflictingIdError"
  else .ok (jobs ++ [j])

/-- The one job apps.py registers: CronTrigger(hour=0, minute=0), fixed
id, replace_existing=True, misfire_grace_time=15. -/
def update_rates_job : SchedJob :=
  { id := "update_exchange_rates", name := "Update Exchange Rates Daily",
    cronHour := 0, cronMinute := 0, misfire_grace_time := 15 }

/-- Embeds ApiConfig.setup_scheduler: the add_job call under the outer
try; on any error the except branch logs and leaves the job table as it
was. -/
def setup_scheduler (jobs : List SchedJob) : List SchedJob :=
  match add_job jobs update_rates_job true with
  | .ok js => js
  | .error _ => jobs

/-- APScheduler misfire handling: a missed run time detected delaySeconds
late still fires exactly when the delay is within the misfire grace
time of the job. -/
def misfire_fires (j : SchedJob) (delaySeconds : Nat) : Bool :=
  delaySeconds ≤ j.misfire_grace_time

/- ===================================================================
   Audit-log admin surface (admin.py, models.py) and operation surface
   =================================================================== -/

/-- The readonly_fields tuple of AuditLogAdmin in admin.py. -/
def auditLogAdminReadonlyFields : List String :=
  ["user", "action", "model_name", "object_id", "object_repr", "changes",
   "ip_address", "user_agent", "timestamp"]

/-- The declared columns of the AuditLog model in models.py. -/
def auditLogModelFields : List String :=
  ["user", "action", "model_name", "object_id", "object_repr", "changes",
   "ip_address", "user_agent", "timestamp"]

/-- AuditLogAdmin.has_add_permission returns False for every request. -/
def auditLogAdminHasAddPermission : Bool := false

/-- AuditLogAdmin.has_delete_permission returns False for every request. -/
def auditLogAdminHasDeletePermission : Bool := false

/-- The on_delete=models.SET_NULL cascade declared on AuditLog.user in
models.py: deleting a User account makes Django update the user column
of every existing AuditLog row referencing that account to NULL, leaving
every other column and every other row unchanged. -/
def set_null_user (userId : Nat) (store : List AuditLogRow) : List AuditLogRow :=
  store.map (fun row =>
    if row.user == some userId then { row with user := none } else row)

/-- Every operation in the system that touches the AuditLog table: the
five signal receivers of audit_middleware.py, the explicit helper of
audit.py, and the SET_NULL cascade fired by deleting a User account —
reachable through the registered UserAdmin of admin.py, which keeps the
delete action enabled. No REST view or serializer over AuditLog exists
in views.py, serializers.py or urls.py, and AuditLogAdmin permits
neither add nor delete. -/
inductive AuditOp
  | userLoggedIn (userId : Nat) (request : Request)
  | userLoggedOut (userId : Option Nat) (request : Request)
  | loginFailed (username : Option String) (request : Request)
  | modelSaved (senderName : String) (instanceId : Nat) (instanceRepr : String)
      (created : Bool)
  | modelDeleted (senderName : String) (instanceId : Nat) (instanceRepr : String)
  | adminAction (userId : Option Nat) (action : AuditAction) (modelName : String)
      (objectId : Option Nat) (objectRepr : String) (request : Option Request)
  | userDeleted (userId : Nat)
  deriving Repr

/-- Applies one audit-touching operation to the AuditLog table. -/
def apply_audit_op (dbOk : Bool) (slot : Option Request) (op : AuditOp)
    (store : List AuditLogRow) : Except String (List AuditLogRow) :=
  match op with
  | .userLoggedIn u r => log_user_login dbOk u r store
  | .userLoggedOut u r => log_user_logout dbOk u r store
  | .loginFailed n r => log_login_failed dbOk n r store
  | .modelSaved s i rep c => log_model_action dbOk s i rep c slot store
  | .modelDeleted s i rep => log_model_delete dbOk s i rep slot store
  | .adminAction u a m o rep r => log_admin_action dbOk u a m o rep r store
  | .userDeleted u => .ok (set_null_user u store)

/- ===================================================================
   Concrete sample data used by witnesses and counterexamples
   =================================================================== -/

/-- A concrete anonymous request used by witnesses. -/
def sampleAnonRequest : Request :=
  { userId := none, httpXForwardedFor := none,
    remoteAddr := some "203.0.113.9", httpUserAgent := some "curl" }

/-- A concrete authenticated request used by witnesses. -/
def sampleAuthRequest : Request :=
  { userId := some 5, httpXForwardedFor := none,
    remoteAddr := some "10.0.0.1", httpUserAgent := some "UA" }

/-- A concrete Sermon instance whose only image column, custom_thumbnail,
is populated. -/
def sampleSermonInst : ModelInstance :=
  { model := .Sermon, id := 7,
    attrs := [("custom_thumbnail", "thumb.jpg")], file_size := some 1024 }

/-- A concrete Merchandise instance with a populated image column. -/
def sampleMerchInst : ModelInstance :=
  { model := .Merchandise, id := 3,
    attrs := [("image", "shirt.jpg")], file_size := some 2048 }

/-- A concrete Book row used by witnesses. -/
def sampleBookRow : Book := { id := 1, name := "Hymnal", price := 10 }

/-- A one-row Book table used by witnesses. -/
def sampleBookTable : List Book := [sampleBookRow]

/-- A concrete Merchandise row used by witnesses. -/
def sampleMerchRow : Merchandise := { id := 1, name := "Shirt", price := 10 }

/-- A one-row Merchandise table used by witnesses. -/
def sampleMerchTable : List Merchandise := [sampleMerchRow]

/-- The GHS rate row of the spec example, rate 12.5. -/
def sampleGhsRow : ExchangeRateRow :=
  { currency_code := "GHS", currency_name := "Ghana Cedi", rate := 25/2 }

/-- A concrete already-persisted AuditLog row created by user 5. -/
def sampleAuditRowUser5 : AuditLogRow :=
  { user := some 5, action := AuditAction.CREATE, model_name := "Event",
    object_id := some 3, object_repr := "Picnic",
    ip_address := some "10.0.0.1", user_agent := "UA" }

/-- The same row after the SET_NULL cascade of deleting user 5. -/
def sampleAuditRowUser5Nulled : AuditLogRow :=
  { sampleAuditRowUser5 with user := none }

/-- A one-row ExchangeRate table holding the GHS rate. -/
def sampleRateTable : List ExchangeRateRow := [sampleGhsRow]

/- ===================================================================
   Theorems
   =================================================================== -/

/-- Claim C1: entity create, update and delete writes performed with no
authenticated actor in the thread slot produce zero AuditLog rows (every
call returns the store unchanged), while a failed login by an anonymous
client appends exactly one PERMISSION_DENIED row carrying the request
client ip and user agent. -/
theorem anonymous_writes_silent_failed_login_logged :
    (∀ (dbOk : Bool) (slot : Option Request) (ops : List WriteOp)
        (store : List AuditLogRow),
      get_request_user slot = none →
      run_writes dbOk slot ops store = .ok store)
  ∧ (∀ (username : Option String) (request : Request) (store : List AuditLogRow),
      log_login_failed true username request store = .ok (store ++
        [{ user := none, action := AuditAction.PERMISSION_DENIED,
           model_name := "User", object_id := none,
           object_repr := "Failed login attempt: " ++ username.getD "unknown",
           ip_address := get_client_ip request,
           user_agent := request.httpUserAgent.getD "" }])) := by
  constructor
  · intro dbOk slot ops
    induction ops with
    | nil => intro store _; rfl
    | cons op rest ih =>
      intro store h
      cases op with
      | save n i r c =>
        simp only [run_writes, log_model_action, h]
        exact ih store h
      | del n i r =>
        simp only [run_writes, log_model_delete, h]
        exact ih store h
  · intro username request store
    rfl

/-- Witness for C1: a concrete anonymous request, two writes producing no
rows, and a failed login producing exactly the one expected row. -/
theorem anonymous_writes_silent_failed_login_logged_witness :
    run_writes true (some sampleAnonRequest)
      [WriteOp.save "Sermon" 1 "Sunday Sermon" true,
       WriteOp.del "Event" 2 "Picnic"] [] = .ok []
  ∧ log_login_failed true (some "mallory") sampleAnonRequest []
      = .ok [{ user := none, action := AuditAction.PERMISSION_DENIED,
               model_name := "User", object_id := none,
               object_repr := "Failed login attempt: mallory",
               ip_address := some "203.0.113.9", user_agent := "curl" }] :=
  ⟨anonymous_writes_silent_failed_login_logged.1 true _ _ [] rfl,
   anonymous_writes_silent_failed_login_logged.2 (some "mallory") _ []⟩

/-- Counterexample for C2: an authenticated write whose AuditLog create
raises is not swallowed: log_model_action propagates the database error
to the caller of the triggering save. -/
theorem audit_db_failure_escapes_cex :
    log_model_action false "Sermon" 1 "Sunday Sermon" true
      (some sampleAuthRequest) [] = .error "DatabaseError" := rfl

/-- Claim C2 amended: for every entity write by an authenticated actor,
a failure while persisting the AuditEvent propagates out of the recorder
to the caller — log_model_action has no exception handling of its own. -/
theorem audit_db_failure_escapes (senderName instanceRepr : String)
    (instanceId : Nat) (created : Bool) (slot : Option Request)
    (store : List AuditLogRow) (h : (get_request_user slot).isSome) :
    log_model_action false senderName instanceId instanceRepr created slot store
      = .error "DatabaseError" := by
  unfold log_model_action
  cases hu : get_request_user slot with
  | none => rw [hu] at h; simp at h
  | some u => simp

/-- Witness for the amended C2 at a concrete authenticated request. -/
theorem audit_db_failure_escapes_witness :
    (get_request_user (some sampleAuthRequest)).isSome
  ∧ log_model_action false "Event" 3 "Picnic" false
      (some sampleAuthRequest) [] = .error "DatabaseError" :=
  ⟨rfl, audit_db_failure_escapes "Event" "Picnic" 3 false _ [] rfl⟩

/-- Counterexample for C3: after a request completes on thread 0 — here
with the handler raising — the thread slot still holds the request; it is
not cleared on that exit path. -/
theorem context_slot_survives_request_cex :
    handle_request (fun _ => none) 0 sampleAuthRequest true 0
      = some sampleAuthRequest := rfl

/-- Claim C3 amended: the carrier slot written by process_request is
never cleared; after a request completes (whether or not the handler
raised) the slot of the handling thread still holds that request, until
the next request on the same thread overwrites it. Isolation across
threads does hold: a request stored on one thread changes the slot of no
other thread. -/
theorem context_slot_semantics (slots : ThreadSlots) (tid : Nat)
    (request : Request) (handlerRaised : Bool) :
    handle_request slots tid request handlerRaised tid = some request
  ∧ ∀ t, t ≠ tid → handle_request slots tid request handlerRaised t = slots t := by
  constructor
  · cases handlerRaised <;> simp [handle_request, process_request]
  · intro t ht
    cases handlerRaised <;> simp [handle_request, process_request, ht]

/-- Witness for the amended C3 on concrete threads 0 and 1. -/
theorem context_slot_semantics_witness :
    handle_request (fun _ => none) 0 sampleAnonRequest false 0
      = some sampleAnonRequest
  ∧ handle_request (fun _ => none) 0 sampleAnonRequest false 1 = none :=
  ⟨(context_slot_semantics (fun _ => none) 0 sampleAnonRequest false).1,
   (context_slot_semantics (fun _ => none) 0 sampleAnonRequest false).2 1 (by decide)⟩

/-- Helper: after the connect calls of signals.py, each registered model
has exactly one post_save registration of log_image_upload; in
particular the duplicated Merchandise connect is deduplicated by the
(receiver, sender) lookup key. -/
lemma post_save_receivers_filter (sender : TrackedModel) :
    post_save_receivers.filter (fun r => r.2 == sender)
      = [("log_image_upload", sender)] := by
  cases sender <;> rfl

/-- Counterexample for C4: Sermon is in the image-bearing registry and
its image column custom_thumbnail is populated on this concrete created
instance, yet the create notification produces zero ImageLog rows,
because log_image_upload probes only attributes named image and
profile_picture. -/
theorem sermon_image_create_untracked_cex :
    imageFieldNames .Sermon = ["custom_thumbnail"]
  ∧ attrVal sampleSermonInst "custom_thumbnail" = "thumb.jpg"
  ∧ send_post_save .Sermon sampleSermonInst true [] = [] :=
  ⟨rfl, rfl, rfl⟩

/-- Claim C4 amended: for every registered kind, a create notification
for an instance whose probed image attribute (image, else
profile_picture) is populated appends exactly one ImageLog row pointing
at the instance, with section_name from the kind-to-label mapping — in
particular exactly one row for Merchandise despite its duplicated
registration; updates append nothing; every registered kind is present
in the mapping (the class-name fallback is not reached for them); and
Sermon creates append nothing since its only image column is
custom_thumbnail, which the handler never probes. -/
theorem image_tracking_semantics :
    (∀ (sender : TrackedModel) (inst : ModelInstance) (f : String)
        (store : List ImageLogRow),
      imageFieldOf sender inst = some f → f ≠ "" →
      send_post_save sender inst true store = store ++
        [{ image := f, content_type := sender, object_id := inst.id,
           section_name := sectionNameFor sender, file_size := inst.file_size }])
  ∧ (∀ (sender : TrackedModel) (inst : ModelInstance) (store : List ImageLogRow),
      send_post_save sender inst false store = store)
  ∧ (∀ inst : ModelInstance, imageFieldOf .Sermon inst = none)
  ∧ (∀ sender : TrackedModel, (section_mapping.lookup sender).isSome) := by
  refine ⟨?_, ?_, ?_, ?_⟩
  · intro sender inst f store hf hne
    unfold send_post_save
    rw [post_save_receivers_filter]
    simp only [List.foldl_cons, List.foldl_nil]
    unfold log_image_upload
    simp [hf, hne]
  · intro sender inst store
    unfold send_post_save
    rw [post_save_receivers_filter]
    simp only [List.foldl_cons, List.foldl_nil]
    unfold log_image_upload
    simp
  · intro inst
    rfl
  · intro sender
    cases sender <;> rfl

/-- Witness for the amended C4: one concrete Merchandise create appends
exactly one row, and an update of the same instance appends none. -/
theorem image_tracking_semantics_witness :
    imageFieldOf .Merchandise sampleMerchInst = some "shirt.jpg"
  ∧ send_post_save .Merchandise sampleMerchInst true [] =
      [{ image := "shirt.jpg", content_type := .Merchandise, object_id := 3,
         section_name := "Merchandise", file_size := some 2048 }]
  ∧ send_post_save .Merchandise sampleMerchInst false [] = [] := by
  refine ⟨rfl, ?_, image_tracking_semantics.2.1 .Merchandise sampleMerchInst []⟩
  exact image_tracking_semantics.1 .Merchandise sampleMerchInst "shirt.jpg" []
    rfl (by decide)

/-- Helper: counting a disjunction of Bool predicates splits into the
first predicate plus the part of the second outside it. -/
lemma countP_or_split {α : Type} (p q : α → Bool) (l : List α) :
    l.countP (fun a => p a || q a) = l.countP p + l.countP (fun a => q a && !p a) := by
  induction l with
  | nil => rfl
  | cons a t ih =>
    cases hp : p a <;> cases hq : q a <;>
      simp [List.countP_cons, hp, hq, ih] <;> omega

/-- Helper: orphanhood at the owning kind of a row coincides with the
per-kind orphan test used inside the sweep. -/
lemma orphanOf_eq (entities : List (TrackedModel × Nat)) (m : TrackedModel)
    (l : ImageLogRow) :
    orphanOf entities m l = ((l.content_type == m) && is_orphan entities l) := by
  by_cases hm : l.content_type = m
  · subst hm
    simp [orphanOf, is_orphan]
  · have hne : (l.content_type == m) = false := beq_eq_false_iff_ne.mpr hm
    simp [orphanOf, hne]

/-- Helper: the surviving-row predicate of one sweep step composed with
the remaining kinds equals the predicate over all the kinds at once. -/
lemma orphan_pred_cons (entities : List (TrackedModel × Nat)) (m : TrackedModel)
    (ms : List TrackedModel) (l : ImageLogRow) :
    (!(ms.contains l.content_type && is_orphan entities l) && !orphanOf entities m l)
      = !((m :: ms).contains l.content_type && is_orphan entities l) := by
  rw [orphanOf_eq, List.contains_cons]
  cases l.content_type == m <;> cases is_orphan entities l <;>
    cases ms.contains l.content_type <;> rfl

/-- Helper: the deleted-row predicates likewise combine by disjunction. -/
lemma orphan_pred_cons_or (entities : List (TrackedModel × Nat)) (m : TrackedModel)
    (ms : List TrackedModel) (l : ImageLogRow) :
    (orphanOf entities m l || (ms.contains l.content_type && is_orphan entities l))
      = ((m :: ms).contains l.content_type && is_orphan entities l) := by
  rw [orphanOf_eq, List.contains_cons]
  cases l.content_type == m <;> cases is_orphan entities l <;>
    cases ms.contains l.content_type <;> rfl

/-- Helper: the cleanup fold over any list of kinds keeps exactly the
rows not orphaned at a visited kind and counts the deleted ones. -/
lemma cleanup_foldl_spec (entities : List (TrackedModel × Nat)) :
    ∀ (ms : List TrackedModel) (logs : List ImageLogRow) (cnt : Nat),
      (ms.foldl (cleanupStep entities) (logs, cnt)).1
        = logs.filter (fun l => !(ms.contains l.content_type && is_orphan entities l))
    ∧ (ms.foldl (cleanupStep entities) (logs, cnt)).2
        = cnt + logs.countP (fun l => ms.contains l.content_type && is_orphan entities l) := by
  intro ms
  induction ms with
  | nil =>
    intro logs cnt
    have hfun : (fun l : ImageLogRow =>
        !(List.contains [] l.content_type && is_orphan entities l)) = fun _ => true :=
      funext fun l => rfl
    have hfun2 : (fun l : ImageLogRow =>
        List.contains [] l.content_type && is_orphan entities l) = fun _ => false :=
      funext fun l => rfl
    constructor
    · show logs = _
      rw [hfun, List.filter_true]
    · show cnt = _
      rw [hfun2]
      rw [show (List.countP (fun _ : ImageLogRow => false) logs) = 0 by simp]
      omega
  | cons m ms ih =>
    intro logs cnt
    have hstep : cleanupStep entities (logs, cnt) m
        = (logs.filter (fun l => !orphanOf entities m l),
           cnt + (logs.filter (orphanOf entities m)).length) := rfl
    obtain ⟨ih1, ih2⟩ := ih (logs.filter (fun l => !orphanOf entities m l))
      (cnt + (logs.filter (orphanOf entities m)).length)
    constructor
    · rw [List.foldl_cons, hstep, ih1, List.filter_filter]
      exact List.filter_congr fun l _ => orphan_pred_cons entities m ms l
    · rw [List.foldl_cons, hstep, ih2, List.countP_filter]
      rw [← List.countP_eq_length_filter]
      have hsplit := countP_or_split (orphanOf entities m)
        (fun l => ms.contains l.content_type && is_orphan entities l) logs
      have hor : logs.countP (fun l =>
            orphanOf entities m l
          || (ms.contains l.content_type && is_orphan entities l))
          = logs.countP (fun l =>
            (m :: ms).contains l.content_type && is_orphan entities l) :=
        List.countP_congr fun l _ => by rw [orphan_pred_cons_or]
      rw [← hor, hsplit]
      have hcomm : (fun l : ImageLogRow =>
            (ms.contains l.content_type && is_orphan entities l) && !orphanOf entities m l)
          = (fun l : ImageLogRow =>
            !orphanOf entities m l && (ms.contains l.content_type && is_orphan entities l)) :=
        funext fun l => Bool.and_comm _ _
      rw [hcomm]
      omega

/-- Helper: every tracked kind appears in the sweep registry. -/
lemma models_to_check_complete (m : TrackedModel) :
    models_to_check.contains m = true := by
  cases m <;> rfl

/-- Claim C7: the orphan reconciler deletes exactly the ImageLog rows
whose owner row no longer exists, reports that number of deletions, and
is idempotent: run again on its own output with no intervening changes
it deletes zero rows. -/
theorem cleanup_orphans_exact_and_idempotent :
    ∀ (entities : List (TrackedModel × Nat)) (logs : List ImageLogRow),
      (cleanup_image_logs entities logs).1
        = logs.filter (fun l => !is_orphan entities l)
    ∧ (cleanup_image_logs entities logs).2
        = (logs.filter (is_orphan entities)).length
    ∧ (cleanup_image_logs entities ((cleanup_image_logs entities logs).1)).2 = 0 := by
  intro entities logs
  obtain ⟨h1, h2⟩ := cleanup_foldl_spec entities models_to_check logs 0
  have hpred : ∀ l : ImageLogRow,
      (models_to_check.contains l.content_type && is_orphan entities l)
        = is_orphan entities l := by
    intro l
    rw [models_to_check_complete]
    exact Bool.true_and _
  have hl1 : (cleanup_image_logs entities logs).1
      = logs.filter (fun l => !is_orphan entities l) :=
    h1.trans (List.filter_congr fun l _ => by rw [hpred l])
  refine ⟨hl1, ?_, ?_⟩
  · refine h2.trans ?_
    rw [Nat.zero_add,
      List.countP_congr (fun l _ => by rw [hpred l] :
        ∀ l ∈ logs, (models_to_check.contains l.content_type
          && is_orphan entities l) = true ↔ is_orphan entities l = true),
      List.countP_eq_length_filter]
  · rw [hl1]
    obtain ⟨_, k2⟩ := cleanup_foldl_spec entities models_to_check
      (logs.filter (fun l => !is_orphan entities l)) 0
    refine k2.trans ?_
    rw [Nat.zero_add, List.countP_filter]
    refine List.countP_eq_zero.mpr ?_
    intro a _
    rw [hpred a]
    cases is_orphan entities a <;> simp

/-- Helper: the upsert loop on a malformed entry stops with the table
accumulated so far and the completion flag cleared, so everything after
the malformed code is left unprocessed while the prefix is processed
exactly as in a run on the prefix alone. -/
lemma ratesLoop_malformed :
    ∀ (pre : List (String × Option ℚ)), (∀ p ∈ pre, p.2.isSome) →
    ∀ (post : List (String × Option ℚ)) (code : String)
      (tbl : List ExchangeRateRow) (created updated : Nat),
      (ratesLoop (pre ++ (code, none) :: post) tbl created updated).1
        = (ratesLoop pre tbl created updated).1
    ∧ (ratesLoop (pre ++ (code, none) :: post) tbl created updated).2.2.2 = false := by
  intro pre
  induction pre with
  | nil =>
    intro _ post code tbl created updated
    exact ⟨rfl, rfl⟩
  | cons p rest ih =>
    intro hgood post code tbl created updated
    obtain ⟨c0, v0⟩ := p
    have hv : v0.isSome := hgood (c0, v0) (List.mem_cons_self _ _)
    obtain ⟨r0, hr0⟩ := Option.isSome_iff_exists.mp hv
    subst hr0
    have hrest : ∀ p ∈ rest, p.2.isSome := fun q hq =>
      hgood q (List.mem_cons_of_mem _ hq)
    simpa [ratesLoop] using ih hrest post code _ _ _

/-- Counterexample for C6: in a fetched mapping with a well-formed rate
for AAA, a malformed value for BBB and a well-formed rate for CCC, the
refresh upserts AAA but never reaches CCC: the malformed value aborts
the rest of the run instead of being rejected for BBB alone. -/
theorem malformed_rate_aborts_refresh_cex :
    handle_update_exchange_rates
      [("AAA", some 2), ("BBB", none), ("CCC", some 3)] []
      = ([{ currency_code := "AAA", currency_name := "AAA Currency", rate := 2 }],
         false) := rfl

/-- Claim C6 amended: a malformed rate value aborts the refresh at that
code — the codes before it in iteration order are upserted exactly as in
a run on that prefix alone, the codes after it are not processed at all —
and the raise is caught by the run-level handler, so the command itself
still terminates normally (flag false, nothing re-raised). -/
theorem malformed_rate_aborts_refresh :
    ∀ (pre post : List (String × Option ℚ)) (code : String)
      (tbl : List ExchangeRateRow),
      (∀ p ∈ pre, p.2.isSome) →
      handle_update_exchange_rates (pre ++ (code, none) :: post) tbl
        = ((handle_update_exchange_rates pre tbl).1, false) := by
  intro pre post code tbl hgood
  obtain ⟨h1, h2⟩ := ratesLoop_malformed pre hgood post code tbl 0 0
  unfold handle_update_exchange_rates
  rw [Prod.ext_iff]
  exact ⟨h1, h2⟩

/-- Witness for the amended C6 at the concrete three-code mapping. -/
theorem malformed_rate_aborts_refresh_witness :
    handle_update_exchange_rates
      [("AAA", some 2), ("BBB", none), ("CCC", some 3)] []
      = ((handle_update_exchange_rates [("AAA", some 2)] []).1, false) :=
  malformed_rate_aborts_refresh [("AAA", some 2)] [("CCC", some 3)] "BBB" []
    (by intro p hp; simp at hp; subst hp; rfl)

/-- Helper: one application of Python str.upper is idempotent on a
character. -/
lemma char_toNat_ofNat_of_lt (n : Nat) (h : n < 55296) : (Char.ofNat n).toNat = n := by
  have hv : n.isValidChar := Or.inl h
  simp [Char.ofNat, hv, Char.ofNatAux, Char.toNat, UInt32.toNat, UInt32.ofNat']

/-- Helper: pyUpperChar is idempotent. -/
lemma pyUpperChar_idem (c : Char) : pyUpperChar (pyUpperChar c) = pyUpperChar c := by
  unfold pyUpperChar
  by_cases h : 97 ≤ c.toNat ∧ c.toNat ≤ 122
  · have hv : (Char.ofNat (c.toNat - 32)).toNat = c.toNat - 32 :=
      char_toNat_ofNat_of_lt _ (by omega)
    rw [if_pos h, hv]
    have hno : ¬(97 ≤ c.toNat - 32 ∧ c.toNat - 32 ≤ 122) := by omega
    rw [if_neg hno]
  · rw [if_neg h, if_neg h]

/-- Helper: pyUpper is idempotent, so the uppercase form of a currency
code is a fixed point of the normalization the endpoints apply. -/
lemma pyUpper_idem (s : String) : pyUpper (pyUpper s) = pyUpper s := by
  unfold pyUpper
  have hdata : (String.mk (s.data.map pyUpperChar)).data = s.data.map pyUpperChar := rfl
  rw [hdata, List.map_map]
  exact congrArg String.mk (List.map_congr_left (fun c _ => pyUpperChar_idem c))

/-- Claim C5: for both price endpoints, an entity found by id converts as
follows — the USD code returns the price unchanged whatever the rate
table holds; a code present in the table yields price times rate rounded
to two decimals; an absent code yields the structured 404 payload
(status 404, not 500) carrying the list of currently known codes. The
code arguments range over normalized (uppercase-fixed) strings, the only
form the lookup ever receives. -/
theorem convert_price_semantics :
    (∀ (books : List Book) (tbl : List ExchangeRateRow) (i : Nat) (b : Book),
      books.find? (fun x => x.id == i) = some b →
        get_book_price books tbl i (some "USD") = .usdOk b.id b.name b.price
      ∧ (∀ (c : String) (er : ExchangeRateRow),
          pyUpper c = c → c ≠ "USD" →
          tbl.find? (fun r => r.currency_code == c) = some er →
          get_book_price books tbl i (some c)
            = .convertedOk b.id b.name b.price (round2 (b.price * er.rate))
                er.rate er.currency_name c)
      ∧ (∀ c : String,
          pyUpper c = c → c ≠ "USD" →
          tbl.find? (fun r => r.currency_code == c) = none →
          get_book_price books tbl i (some c)
            = .currencyNotFound c (tbl.map (fun r => r.currency_code))
          ∧ statusOf (get_book_price books tbl i (some c)) = 404))
  ∧ (∀ (items : List Merchandise) (tbl : List ExchangeRateRow) (i : Nat)
        (m : Merchandise),
      items.find? (fun x => x.id == i) = some m →
        get_merchandise_price items tbl i (some "USD") = .usdOk m.id m.name m.price
      ∧ (∀ (c : String) (er : ExchangeRateRow),
          pyUpper c = c → c ≠ "USD" →
          tbl.find? (fun r => r.currency_code == c) = some er →
          get_merchandise_price items tbl i (some c)
            = .convertedOk m.id m.name m.price (round2 (m.price * er.rate))
                er.rate er.currency_name c)
      ∧ (∀ c : String,
          pyUpper c = c → c ≠ "USD" →
          tbl.find? (fun r => r.currency_code == c) = none →
          get_merchandise_price items tbl i (some c)
            = .currencyNotFound c (tbl.map (fun r => r.currency_code))
          ∧ statusOf (get_merchandise_price items tbl i (some c)) = 404)) := by
  constructor
  · intro books tbl i b hb
    refine ⟨?_, ?_, ?_⟩
    · simp only [get_book_price, hb]
      rfl
    · intro c er hcup hcne hfind
      simp only [get_book_price, hb, Option.getD_some, hcup, if_neg hcne, hfind]
    · intro c hcup hcne hfind
      have heq : get_book_price books tbl i (some c)
          = .currencyNotFound c (tbl.map (fun r => r.currency_code)) := by
        simp only [get_book_price, hb, Option.getD_some, hcup, if_neg hcne, hfind]
      exact ⟨heq, by rw [heq]; rfl⟩
  · intro items tbl i m hm
    refine ⟨?_, ?_, ?_⟩
    · simp only [get_merchandise_price, hm]
      rfl
    · intro c er hcup hcne hfind
      simp only [get_merchandise_price, hm, Option.getD_some, hcup, if_neg hcne, hfind]
    · intro c hcup hcne hfind
      have heq : get_merchandise_price items tbl i (some c)
          = .currencyNotFound c (tbl.map (fun r => r.currency_code)) := by
        simp only [get_merchandise_price, hm, Option.getD_some, hcup, if_neg hcne, hfind]
      exact ⟨heq, by rw [heq]; rfl⟩

/-- Witness for C5 at the concrete spec example: GHS at rate 12.5
converts 10.00 to 125.00, USD is the identity, and the unknown code ZZZ
yields 404 with the known-codes list containing GHS. -/
theorem convert_price_semantics_witness :
    get_book_price sampleBookTable sampleRateTable 1 (some "USD")
      = .usdOk 1 "Hymnal" 10
  ∧ get_book_price sampleBookTable sampleRateTable 1 (some "GHS")
      = .convertedOk 1 "Hymnal" 10 125 (25/2) "Ghana Cedi" "GHS"
  ∧ get_book_price sampleBookTable sampleRateTable 1 (some "ZZZ")
      = .currencyNotFound "ZZZ" ["GHS"]
  ∧ get_merchandise_price sampleMerchTable sampleRateTable 1 (some "GHS")
      = .convertedOk 1 "Shirt" 10 125 (25/2) "Ghana Cedi" "GHS" := by
  obtain ⟨hb1, hb2, hb3⟩ := convert_price_semantics.1 sampleBookTable
    sampleRateTable 1 sampleBookRow rfl
  obtain ⟨_, hm2, _⟩ := convert_price_semantics.2 sampleMerchTable
    sampleRateTable 1 sampleMerchRow rfl
  have h125 : round2 ((10 : ℚ) * (25/2)) = 125 := by
    norm_num [round2, roundHalfEven]
  refine ⟨hb1, ?_, ?_, ?_⟩
  · exact (hb2 "GHS" sampleGhsRow rfl (by decide) rfl).trans (by rw [show
      round2 (sampleBookRow.price * sampleGhsRow.rate) = 125 from h125]; rfl)
  · exact (hb3 "ZZZ" rfl (by decide) rfl).1
  · exact (hm2 "GHS" sampleGhsRow rfl (by decide) rfl).trans (by rw [show
      round2 (sampleMerchRow.price * sampleGhsRow.rate) = 125 from h125]; rfl)

/-- Claim C10: both price endpoints normalize the caller-supplied
currency code to upper case before any comparison, so a lower- or
mixed-case code behaves identically to its upper-case form, including
the USD short-circuit for usd. -/
theorem currency_code_case_insensitive :
    (∀ (books : List Book) (tbl : List ExchangeRateRow) (i : Nat) (raw : String),
      get_book_price books tbl i (some raw)
        = get_book_price books tbl i (some (pyUpper raw)))
  ∧ (∀ (items : List Merchandise) (tbl : List ExchangeRateRow) (i : Nat)
        (raw : String),
      get_merchandise_price items tbl i (some raw)
        = get_merchandise_price items tbl i (some (pyUpper raw))) := by
  constructor
  · intro books tbl i raw
    simp only [get_book_price, Option.getD_some, pyUpper_idem]
  · intro items tbl i raw
    simp only [get_merchandise_price, Option.getD_some, pyUpper_idem]

/-- Counterexample for C8: deleting the User account with id 5 fires the
SET_NULL cascade declared on AuditLog.user and updates the user column
of an existing AuditLog row created by that account — the row is mutated
after creation, so the unconditional never-updated claim fails. -/
theorem audit_row_mutated_by_user_delete_cex :
    apply_audit_op true none (.userDeleted 5) [sampleAuditRowUser5]
      = .ok [sampleAuditRowUser5Nulled]
  ∧ sampleAuditRowUser5.user = some 5
  ∧ sampleAuditRowUser5Nulled.user = none
  ∧ sampleAuditRowUser5Nulled ≠ sampleAuditRowUser5 :=
  ⟨rfl, rfl, rfl, by decide⟩

/-- Claim C8 amended: no operation updates an existing AuditEvent except
the SET_NULL cascade fired by deleting the referenced User account:
every other operation of the write surface appends rows, leaving every
existing row in place unchanged, while deleting a user rewrites the
table by nulling exactly the user column of that account's rows (a
length-preserving map touching no other row or column); the admin
registration permits neither adding nor deleting and marks every model
column read-only; records originate solely from the recorder. -/
theorem audit_rows_append_only_except_user_cascade :
    (∀ (dbOk : Bool) (slot : Option Request) (op : AuditOp)
        (store result : List AuditLogRow),
      apply_audit_op dbOk slot op store = .ok result →
        (∃ tail, result = store ++ tail)
      ∨ (∃ uid, op = AuditOp.userDeleted uid ∧ result = set_null_user uid store))
  ∧ (∀ (uid : Nat) (store : List AuditLogRow),
      (set_null_user uid store).length = store.length
    ∧ ∀ row ∈ store, row.user ≠ some uid →
        (if row.user == some uid then { row with user := none } else row) = row)
  ∧ auditLogAdminHasAddPermission = false
  ∧ auditLogAdminHasDeletePermission = false
  ∧ auditLogModelFields.all
      (fun f => auditLogAdminReadonlyFields.contains f) = true := by
  refine ⟨?_, ?_, rfl, rfl, rfl⟩
  case refine_2 =>
    intro uid store
    constructor
    · exact List.length_map store _
    · intro row _ hu
      rw [if_neg]
      simp [hu]
  intro dbOk slot op store result h
  cases op with
  | userDeleted u =>
    refine Or.inr ⟨u, rfl, ?_⟩
    unfold apply_audit_op at h
    simpa using h.symm

  | userLoggedIn u r =>
    unfold apply_audit_op log_user_login at h
    cases dbOk with
    | true => exact Or.inl ⟨_, (by simpa using h.symm)⟩
    | false => simp at h
  | userLoggedOut u r =>
    unfold apply_audit_op log_user_logout at h
    cases u with
    | none => exact Or.inl ⟨[], by simpa using h.symm⟩
    | some u0 =>
      cases dbOk with
      | true => exact Or.inl ⟨_, (by simpa using h.symm)⟩
      | false => simp at h
  | loginFailed n r =>
    unfold apply_audit_op log_login_failed at h
    cases dbOk with
    | true => exact Or.inl ⟨_, (by simpa using h.symm)⟩
    | false => simp at h
  | modelSaved s i rep c =>
    unfold apply_audit_op log_model_action at h
    cases hu : get_request_user slot with
    | none => rw [hu] at h; exact Or.inl ⟨[], by simpa using h.symm⟩
    | some u0 =>
      rw [hu] at h
      cases dbOk with
      | true => exact Or.inl ⟨_, (by simpa using h.symm)⟩
      | false => simp at h
  | modelDeleted s i rep =>
    unfold apply_audit_op log_model_delete at h
    cases hu : get_request_user slot with
    | none => rw [hu] at h; exact Or.inl ⟨[], by simpa using h.symm⟩
    | some u0 =>
      rw [hu] at h
      cases dbOk with
      | true => exact Or.inl ⟨_, (by simpa using h.symm)⟩
      | false => simp at h
  | adminAction u a m o rep r =>
    unfold apply_audit_op log_admin_action at h
    cases dbOk with
    | true => exact Or.inl ⟨_, (by simpa using h.symm)⟩
    | false => simp at h

/-- Witness for the amended C8: deleting user 5 over a one-row table
lands in the cascade branch of the dichotomy at a concrete input. -/
theorem audit_rows_append_only_except_user_cascade_witness :
    (∃ tail, [sampleAuditRowUser5Nulled] = [sampleAuditRowUser5] ++ tail)
  ∨ (∃ uid, AuditOp.userDeleted 5 = AuditOp.userDeleted uid
      ∧ [sampleAuditRowUser5Nulled] = set_null_user uid [sampleAuditRowUser5]) :=
  audit_rows_append_only_except_user_cascade.1 true none (.userDeleted 5)
    [sampleAuditRowUser5] [sampleAuditRowUser5Nulled] rfl

/-- Counterexample for C9: the registered job has misfire_grace_time 15,
which APScheduler reads as 15 seconds; a missed daily trigger detected
600 seconds (10 minutes) late — well within a 15-minute window — does not
fire, contradicting the approximately-15-minutes reading. -/
theorem misfire_grace_seconds_cex :
    setup_scheduler [] = [update_rates_job]
  ∧ update_rates_job.misfire_grace_time = 15
  ∧ misfire_fires update_rates_job 600 = false :=
  ⟨rfl, rfl, rfl⟩

/-- Helper: setup_scheduler when a job of the same id is present. -/
lemma setup_scheduler_of_any (jobs : List SchedJob)
    (h : jobs.any (fun x => x.id == update_rates_job.id) = true) :
    setup_scheduler jobs
      = jobs.filter (fun x => !(x.id == update_rates_job.id)) ++ [update_rates_job] := by
  unfold setup_scheduler add_job
  rw [if_pos h, if_pos rfl]

/-- Helper: setup_scheduler when no job of the same id is present. -/
lemma setup_scheduler_of_not_any (jobs : List SchedJob)
    (h : ¬jobs.any (fun x => x.id == update_rates_job.id) = true) :
    setup_scheduler jobs = jobs ++ [update_rates_job] := by
  unfold setup_scheduler add_job
  rw [if_neg h]

/-- Claim C9 amended: the scheduler registers exactly one daily job under
the fixed id update_exchange_rates with replace-on-re-registration
(after any setup run the job table holds exactly one job of that id, and
re-running setup leaves the table unchanged), and its misfire grace
window is 15 seconds: a missed trigger fires exactly when detected
within 15 seconds. -/
theorem scheduler_job_unique_and_grace :
    ∀ jobs : List SchedJob,
      (setup_scheduler jobs).filter (fun j => j.id == "update_exchange_rates")
        = [update_rates_job]
    ∧ setup_scheduler (setup_scheduler jobs) = setup_scheduler jobs
    ∧ ∀ d : Nat, misfire_fires update_rates_job d = decide (d ≤ 15) := by
  intro jobs
  by_cases hany : jobs.any (fun x => x.id == update_rates_job.id) = true
  · have hset := setup_scheduler_of_any jobs hany
    have hnone : ∀ x ∈ jobs.filter (fun x => !(x.id == update_rates_job.id)),
        ¬(x.id == "update_exchange_rates") = true := by
      intro x hx
      have := List.of_mem_filter hx
      simpa using this
    have hany2 : (setup_scheduler jobs).any (fun x => x.id == update_rates_job.id) = true := by
      rw [hset]
      simp
    refine ⟨?_, ?_, fun d => rfl⟩
    · rw [hset, List.filter_append, List.filter_eq_nil_iff.mpr hnone]
      rfl
    · rw [setup_scheduler_of_any _ hany2, hset, List.filter_append, List.filter_filter]
      have h1 : (jobs.filter (fun x =>
          (!(x.id == update_rates_job.id)) && !(x.id == update_rates_job.id)))
          = jobs.filter (fun x => !(x.id == update_rates_job.id)) :=
        List.filter_congr fun x _ => by cases x.id == update_rates_job.id <;> rfl
      rw [h1, show ([update_rates_job].filter
        (fun x => !(x.id == update_rates_job.id))) = [] from rfl, List.append_nil]
  · have hset := setup_scheduler_of_not_any jobs hany
    have hnone : ∀ x ∈ jobs, ¬(x.id == "update_exchange_rates") = true := by
      intro x hx hbeq
      exact hany (List.any_eq_true.mpr ⟨x, hx, hbeq⟩)
    have hany2 : (setup_scheduler jobs).any (fun x => x.id == update_rates_job.id) = true := by
      rw [hset]
      simp
    refine ⟨?_, ?_, fun d => rfl⟩
    · rw [hset, List.filter_append, List.filter_eq_nil_iff.mpr hnone]
      rfl
    · rw [setup_scheduler_of_any _ hany2, hset, List.filter_append]
      have h1 : jobs.filter (fun x => !(x.id == update_rates_job.id)) = jobs :=
        List.filter_eq_self.mpr fun x hx => by
          have := hnone x hx
          simpa using this
      rw [h1, show ([update_rates_job].filter
        (fun x => !(x.id == update_rates_job.id))) = [] from rfl, List.append_nil]
